import Mathlib

/-!
Shallow embedding of the contact-form validation and message-store logic of
`script.js` (personal portfolio page), together with theorems checking the
specification document against it.

Conventions of the embedding:
* JS strings are Lean `String`s; `String.prototype.trim` is modelled by
  `jsTrim`, which strips leading and trailing whitespace characters.
* JSON values are modelled by the inductive `JVal`.  The browser storage slot
  `localStorage.getItem('contactMessages')` yields either `none` (key absent)
  or a string; a stored string is abstracted as `StoredString`: either
  `malformed` (a string `JSON.parse` rejects) or `wellFormed v` (a string that
  parses to the JSON value `v`).  `JSON.stringify` always produces a parsable
  string, hence `jsonStringify v = wellFormed v`.
* A thrown JS exception is modelled by `Except.error ()`.
-/

namespace Script

/-- Model of the JS whitespace class used by `trim` and the `\s` of the
email regular expression. -/
def isWs (c : Char) : Bool := c.isWhitespace

/-- Strip leading and trailing whitespace from a list of characters. -/
def trimChars (cs : List Char) : List Char :=
  ((cs.dropWhile isWs).reverse.dropWhile isWs).reverse

/-- Model of `value.trim()` from JS. -/
def jsTrim (s : String) : String := ⟨trimChars s.data⟩

/-- Characters admitted by the character class `[^\s@]` of the email
regular expression. -/
def isLocalChar (c : Char) : Bool := !isWs c && c != '@'

/-- `r` has a dot at a position that is neither first nor last, i.e. a
decomposition `r = b ++ "." ++ c` with `b`, `c` nonempty exists. -/
def hasInnerDot (r : List Char) : Bool := ((r.drop 1).dropLast).contains '.'

/-- Model of `/^[^\s@]+@[^\s@]+\.[^\s@]+$/.test s` (the email pattern of
`validationRules.senderEmail`): an `@` splits the string into a nonempty
local part and a nonempty remainder, both free of whitespace and further
`@` signs, and the remainder contains an inner dot, giving the nonempty
`[^\s@]+\.[^\s@]+` decomposition. -/
def emailRegexTest (s : String) : Bool :=
  let cs := s.data
  let a := cs.takeWhile (fun c => c != '@')
  let r := cs.drop (a.length + 1)
  decide (a.length + 1 ≤ cs.length) && !a.isEmpty && a.all isLocalChar &&
    !r.isEmpty && r.all isLocalChar && hasInnerDot r

/-- The per-failure-kind message table of one entry of `validationRules`. -/
structure ErrorMessages where
  required : String
  minLength : String
  maxLength : String
  pattern : String
deriving Repr, DecidableEq

/-- One entry of `validationRules`: field absent in the JS object literal is
`none` / `false`; the optional regex is an abstract `String → Bool` test. -/
structure FieldRules where
  required : Bool
  minLength : Option Nat
  maxLength : Option Nat
  pattern : Option (String → Bool)
  errorMessages : ErrorMessages

/-- Truthiness of `rules.minLength` / `rules.maxLength`: `undefined` and `0`
are falsy, any other number is truthy. -/
def optTruthy (o : Option Nat) : Bool := o.getD 0 != 0

/-- The `validationRules.senderName` entry. -/
def senderNameRules : FieldRules :=
  { required := true, minLength := some 2, maxLength := some 100,
    pattern := none,
    errorMessages :=
      { required := "Please enter your name",
        minLength := "Name must be at least 2 characters",
        maxLength := "Name must be less than 100 characters",
        pattern := "" } }

/-- The `validationRules.senderEmail` entry. -/
def senderEmailRules : FieldRules :=
  { required := true, minLength := none, maxLength := none,
    pattern := some emailRegexTest,
    errorMessages :=
      { required := "Please enter your email address",
        minLength := "", maxLength := "",
        pattern := "Please enter a valid email address (e.g., name@example.com)" } }

/-- The `validationRules.subject` entry. -/
def subjectRules : FieldRules :=
  { required := true, minLength := some 3, maxLength := some 200,
    pattern := none,
    errorMessages :=
      { required := "Please enter a subject",
        minLength := "Subject must be at least 3 characters",
        maxLength := "Subject must be less than 200 characters",
        pattern := "" } }

/-- The `validationRules.message` entry. -/
def messageRules : FieldRules :=
  { required := true, minLength := some 10, maxLength := some 5000,
    pattern := none,
    errorMessages :=
      { required := "Please enter your message",
        minLength := "Message must be at least 10 characters",
        maxLength := "Message must be less than 5000 characters",
        pattern := "" } }

/-- The `validationRules` table of `script.js`, keyed by field id. -/
def validationRules : String → Option FieldRules
  | "senderName" => some senderNameRules
  | "senderEmail" => some senderEmailRules
  | "subject" => some subjectRules
  | "message" => some messageRules
  | _ => none

/-- Return value of `validateField`. -/
structure FieldResult where
  isValid : Bool
  errorMessage : String
deriving Repr, DecidableEq

/-- The body of `validateField` after `const trimmedValue = value.trim()`:
the four rule checks in source order, first failure wins. -/
def checkRules (rules : FieldRules) (trimmedValue : String) : FieldResult :=
  if rules.required && (trimmedValue == "") then
    { isValid := false, errorMessage := rules.errorMessages.required }
  else if optTruthy rules.minLength &&
      decide (trimmedValue.length < rules.minLength.getD 0) then
    { isValid := false, errorMessage := rules.errorMessages.minLength }
  else if optTruthy rules.maxLength &&
      decide (trimmedValue.length > rules.maxLength.getD 0) then
    { isValid := false, errorMessage := rules.errorMessages.maxLength }
  else
    match rules.pattern with
    | some p =>
      if !p trimmedValue then
        { isValid := false, errorMessage := rules.errorMessages.pattern }
      else
        { isValid := true, errorMessage := "" }
    | none => { isValid := true, errorMessage := "" }

/-- Model of `validateField(fieldId, value)` from `script.js`. -/
def validateField (fieldId : String) (value : String) : FieldResult :=
  match validationRules fieldId with
  | none => { isValid := true, errorMessage := "" }
  | some rules => checkRules rules (jsTrim value)

/-- The four input values of the contact form, indexed by element id. -/
structure FormValues where
  senderName : String
  senderEmail : String
  subject : String
  message : String
deriving Repr, DecidableEq

/-- `document.getElementById(fieldId).value` for the four form fields. -/
def fieldValue (fv : FormValues) : String → String
  | "senderName" => fv.senderName
  | "senderEmail" => fv.senderEmail
  | "subject" => fv.subject
  | "message" => fv.message
  | _ => ""

/-- The field id list iterated by `validateForm`. -/
def formFields : List String := ["senderName", "senderEmail", "subject", "message"]

/-- Observable outcome of `validateForm`: its return value, the set of
fields on which `showFieldError` was invoked (with the message shown), and
the field that receives focus at the end. -/
structure FormValidation where
  isFormValid : Bool
  errorsShown : List (String × String)
  firstInvalidField : Option String
deriving Repr, DecidableEq

/-- Model of `validateForm()` from `script.js`: a fold over `formFields`
mirroring the `forEach` loop body. -/
def validateForm (fv : FormValues) : FormValidation :=
  formFields.foldl
    (fun acc fieldId =>
      let result := validateField fieldId (fieldValue fv fieldId)
      if !result.isValid then
        { isFormValid := false,
          errorsShown := acc.errorsShown ++ [(fieldId, result.errorMessage)],
          firstInvalidField :=
            match acc.firstInvalidField with
            | none => some fieldId
            | some f => some f }
      else acc)
    { isFormValid := true, errorsShown := [], firstInvalidField := none }

/-- JSON values, as produced by `JSON.parse`. -/
inductive JVal where
  | jnull : JVal
  | jbool : Bool → JVal
  | jnum : Int → JVal
  | jstr : String → JVal
  | jarr : List JVal → JVal
  | jobj : List (String × JVal) → JVal

/-- JS truthiness of a parsed JSON value (`null`, `false`, `0` and the empty
string are falsy; arrays and objects are always truthy). -/
def truthy : JVal → Bool
  | .jnull => false
  | .jbool b => b
  | .jnum n => n != 0
  | .jstr s => s != ""
  | .jarr _ => true
  | .jobj _ => true

/-- A string held in the storage slot, abstracted by what `JSON.parse` does
with it: `malformed` strings make it throw, `wellFormed v` strings parse
to `v`. -/
inductive StoredString where
  | malformed : StoredString
  | wellFormed : JVal → StoredString

/-- The `localStorage` slot for a key: `none` when the key is absent
(`getItem` returns `null`). -/
abbrev StorageSlot := Option StoredString

/-- `JSON.parse(localStorage.getItem(key))`: an absent key gives `null`
(which `JSON.parse` stringifies to `"null"` and parses back to JSON null);
a malformed string throws a `SyntaxError`. -/
def jsonParse : StorageSlot → Except Unit JVal
  | none => .ok .jnull
  | some .malformed => .error ()
  | some (.wellFormed v) => .ok v

/-- `JSON.stringify` on a JSON value always yields a parsable string. -/
def jsonStringify (v : JVal) : StoredString := .wellFormed v

/-- Model of `getMessagesFromStorage()`:
`JSON.parse(localStorage.getItem('contactMessages')) || []`. -/
def getMessagesFromStorage (slot : StorageSlot) : Except Unit JVal :=
  (jsonParse slot).map (fun v => if truthy v then v else .jarr [])

/-- Model of `saveMessageToStorage(message)`: read the existing collection,
`unshift` the new message at the head, stringify and store.  `unshift` on a
value that is not an array throws a `TypeError`. -/
def saveMessageToStorage (message : JVal) (slot : StorageSlot) :
    Except Unit StorageSlot := do
  let messages ← getMessagesFromStorage slot
  match messages with
  | .jarr elems => .ok (some (jsonStringify (.jarr (message :: elems))))
  | _ => .error ()

/-- `msg.id` of a parsed JSON value: property lookup on an object,
`undefined` on everything else. -/
def idOf : JVal → Option JVal
  | .jobj fields => fields.lookup "id"
  | _ => none

/-- The negation of the JS filter predicate `msg.id !== messageId`: strict
equality of `msg.id` with the number `messageId`. -/
def matchesId (m : JVal) (messageId : Int) : Bool :=
  match idOf m with
  | some (.jnum n) => n == messageId
  | _ => false

/-- Model of `deleteMessage(messageId)`: filter out every entry whose `id`
strictly equals `messageId` and re-store.  `filter` on a non-array value
throws a `TypeError`. -/
def deleteMessage (messageId : Int) (slot : StorageSlot) :
    Except Unit StorageSlot := do
  let messages ← getMessagesFromStorage slot
  match messages with
  | .jarr elems =>
    .ok (some (jsonStringify (.jarr (elems.filter (fun m => !matchesId m messageId)))))
  | _ => .error ()

/-- Model of the confirmed branch of `clearAllMessages()`:
`localStorage.removeItem('contactMessages')`. -/
def clearAllMessages (_slot : StorageSlot) : StorageSlot := none

/-- The `formData` object literal built by `handleSubmit` (the `id` comes
from `Date.now()`, the `date` from `new Date().toISOString()`). -/
def mkFormData (now : Int) (isoDate : String) (fv : FormValues) : JVal :=
  .jobj [("id", .jnum now),
         ("name", .jstr (jsTrim fv.senderName)),
         ("email", .jstr (jsTrim fv.senderEmail)),
         ("subject", .jstr (jsTrim fv.subject)),
         ("message", .jstr (jsTrim fv.message)),
         ("date", .jstr isoDate)]

/-- Resolution of the `emailjs.send` promise. -/
inductive SendOutcome where
  | success : SendOutcome
  | failure : SendOutcome

/-- Observable outcome of `handleSubmit`: final storage slot, the
`formStatus` class and text, and the submit button state. -/
structure SubmitResult where
  storage : StorageSlot
  statusClass : String
  statusText : String
  submitDisabled : Bool
  submitLabel : String

/-- Model of `handleSubmit(event)` from `script.js`, as a function of the
form values, the clock readings, the resolution of the send attempt and the
current storage slot.  The validation-failure branch returns before any send
or store activity; the `.then` branch appends to storage; the `.catch`
branch leaves storage untouched and re-enables the submit button. -/
def handleSubmit (fv : FormValues) (now : Int) (isoDate : String)
    (send : SendOutcome) (slot : StorageSlot) : Except Unit SubmitResult :=
  if !(validateForm fv).isFormValid then
    .ok { storage := slot, statusClass := "form-status error",
          statusText := "Please fix the errors above and try again.",
          submitDisabled := false, submitLabel := "Send Message" }
  else
    match send with
    | .success => do
      let slot2 ← saveMessageToStorage (mkFormData now isoDate fv) slot
      .ok { storage := slot2, statusClass := "form-status success",
            statusText := "Message sent successfully! I\x27ll get back to you soon.",
            submitDisabled := false, submitLabel := "Send Message" }
    | .failure =>
      .ok { storage := slot, statusClass := "form-status error",
            statusText := "Failed to send message. Please try again or email me directly.",
            submitDisabled := false, submitLabel := "Send Message" }

/-- Model of `toggleTheme()`: given whether `dark-mode` was present on
`body`, return the new presence of the class and the string written under
the `theme` key. -/
def toggleTheme (darkModeBefore : Bool) : Bool × String :=
  let isDarkMode := !darkModeBefore
  (isDarkMode, if isDarkMode then "dark" else "light")

/-- JS truthiness of `localStorage.getItem('theme')` (`null` and the empty
string are falsy). -/
def savedThemeTruthy : Option String → Bool
  | none => false
  | some s => s != ""

/-- Model of `initializeTheme()`: whether `dark-mode` is added to `body`,
given the stored `theme` value and the OS `prefers-color-scheme: dark`
media query. -/
def initializeTheme (savedTheme : Option String) (prefersDark : Bool) : Bool :=
  (savedTheme == some "dark") || (!savedThemeTruthy savedTheme && prefersDark)

/-- Iterated `saveMessageToStorage`: `N` form submissions in sequence. -/
def appendAll (msgs : List JVal) (slot : StorageSlot) : Except Unit StorageSlot :=
  msgs.foldlM (fun s m => saveMessageToStorage m s) slot

/-- The sample submission of the specification (§8): a form filling that
passes validation. -/
def sampleForm : FormValues :=
  { senderName := "Jo", senderEmail := "jo@x.com", subject := "Hi there",
    message := "This is a sufficiently long message." }

/-! ### Sanity checks of the embedding against the test vectors of §8 -/

theorem email_vector_valid : (validateField "senderEmail" "a@b.co").isValid = true := by
  decide

theorem email_vector_invalid :
    (validateField "senderEmail" "not-an-email").isValid = false := by decide

theorem sample_form_passes : (validateForm sampleForm).isFormValid = true := by decide

/-! ### Helper lemmas -/

theorem dropWhile_all_ws {l : List Char} (h : ∀ c ∈ l, isWs c = true) :
    l.dropWhile isWs = [] := by
  induction l with
  | nil => rfl
  | cons a t ih =>
    have ha : isWs a = true := h a (List.mem_cons_self a t)
    have ht : ∀ c ∈ t, isWs c = true := fun c hc => h c (List.mem_cons_of_mem a hc)
    simp [List.dropWhile_cons, ha, ih ht]

theorem trimChars_pad (p l q : List Char) (hp : ∀ c ∈ p, isWs c = true)
    (hq : ∀ c ∈ q, isWs c = true) :
    trimChars (p ++ l ++ q) = trimChars l := by
  unfold trimChars
  rw [List.append_assoc, List.dropWhile_append_of_pos hp, List.dropWhile_append]
  by_cases hd : (l.dropWhile isWs).isEmpty
  · rw [if_pos hd, dropWhile_all_ws hq]
    have hnil : l.dropWhile isWs = [] := List.isEmpty_iff.mp hd
    rw [hnil]
  · rw [if_neg hd, List.reverse_append,
      List.dropWhile_append_of_pos (fun c hc => hq c (List.mem_reverse.mp hc))]

theorem jsTrim_pad (pre v post : String) (hpre : ∀ c ∈ pre.data, isWs c = true)
    (hpost : ∀ c ∈ post.data, isWs c = true) :
    jsTrim (pre ++ v ++ post) = jsTrim v := by
  have h := trimChars_pad pre.data v.data post.data hpre hpost
  simp only [jsTrim, String.data_append]
  exact congrArg String.mk h

theorem trimChars_all_ws {l : List Char} (h : ∀ c ∈ l, isWs c = true) :
    trimChars l = [] := by
  unfold trimChars
  rw [dropWhile_all_ws h]
  rfl

theorem jsTrim_all_ws (v : String) (h : ∀ c ∈ v.data, isWs c = true) :
    jsTrim v = "" :=
  congrArg String.mk (trimChars_all_ws h)

/-- `getMessagesFromStorage` on a well-formed stored array returns that
array unchanged (arrays are truthy, even when empty). -/
theorem getMessages_wellFormed_arr (l : List JVal) :
    getMessagesFromStorage (some (.wellFormed (.jarr l))) = .ok (.jarr l) := rfl

/-- `saveMessageToStorage` on a slot whose deserialization yields an array
prepends the new message and stores the extended array. -/
theorem saveMessage_ok (slot : StorageSlot) (elems : List JVal) (m : JVal)
    (h : getMessagesFromStorage slot = .ok (.jarr elems)) :
    saveMessageToStorage m slot = .ok (some (.wellFormed (.jarr (m :: elems)))) := by
  unfold saveMessageToStorage
  rw [h]
  rfl

/-- `checkRules` with no configured pattern is valid exactly when none of
the three preceding checks fires. -/
theorem checkRules_none_isValid (rules : FieldRules) (t : String)
    (hp : rules.pattern = none) :
    (checkRules rules t).isValid =
      (!(rules.required && (t == "")) &&
       !(optTruthy rules.minLength && decide (t.length < rules.minLength.getD 0)) &&
       !(optTruthy rules.maxLength && decide (t.length > rules.maxLength.getD 0))) := by
  unfold checkRules
  cases h1 : (rules.required && (t == "")) <;>
    cases h2 : (optTruthy rules.minLength && decide (t.length < rules.minLength.getD 0)) <;>
      cases h3 : (optTruthy rules.maxLength && decide (t.length > rules.maxLength.getD 0)) <;>
        simp [h1, h2, h3, hp]

/-! ### Claim theorems -/

/-- Claim C10: validateField returns the same verdict for a value and for
the value with any leading or trailing whitespace added; all of its checks,
the pattern check included, are applied to the trimmed value, so validation
results are invariant under leading/trailing whitespace padding. -/
theorem validateField_pad_invariant (fieldId pre value post : String)
    (hpre : ∀ c ∈ pre.data, isWs c = true)
    (hpost : ∀ c ∈ post.data, isWs c = true) :
    validateField fieldId (pre ++ value ++ post) = validateField fieldId value := by
  unfold validateField
  rw [jsTrim_pad pre value post hpre hpost]

/-- Witness for C10 at a concrete padded input. -/
theorem validateField_pad_invariant_witness :
    validateField "senderName" (" " ++ "Jo" ++ "  ") = validateField "senderName" "Jo" :=
  validateField_pad_invariant "senderName" " " "Jo" "  " (by decide) (by decide)

/-- Claim C9 (as stated over the embedded operations): the theme toggle
always persists one of the literal strings "dark" / "light", and with the
key absent `initializeTheme` follows the OS preference; a stored "dark"
forces dark mode and a stored "light" forces light mode regardless of the
OS preference. -/
theorem theme_values (darkModeBefore prefersDark : Bool) :
    ((toggleTheme darkModeBefore).2 = "dark" ∨ (toggleTheme darkModeBefore).2 = "light")
  ∧ (initializeTheme none prefersDark = prefersDark)
  ∧ (initializeTheme (some "dark") prefersDark = true)
  ∧ (initializeTheme (some "light") prefersDark = false) := by
  cases darkModeBefore <;> cases prefersDark <;> decide

/-- Counterexample to claim C2: a stored value that is not parsable as JSON
makes `JSON.parse` throw, so `getMessagesFromStorage` raises an error
instead of returning the empty collection, and `saveMessageToStorage` on
the same slot raises an error instead of producing a one-element
collection. -/
theorem corrupt_value_raises :
    getMessagesFromStorage (some .malformed) = .error ()
  ∧ getMessagesFromStorage (some .malformed) ≠ .ok (.jarr [])
  ∧ saveMessageToStorage (.jobj [("id", .jnum 1)]) (some .malformed) = .error () := by
  refine ⟨rfl, ?_, rfl⟩
  intro h
  exact Except.noConfusion h

/-- Claim C2 as amended: an absent key, or a persisted value parsing to a
JSON-falsy value, is treated as the empty collection (`listAll` returns the
empty sequence and `append` produces a one-element collection); a persisted
value that is not parsable as JSON instead makes both operations raise an
error. -/
theorem storage_corruption_policy (m v : JVal) (hv : truthy v = false) :
    getMessagesFromStorage none = .ok (.jarr [])
  ∧ getMessagesFromStorage (some (.wellFormed v)) = .ok (.jarr [])
  ∧ saveMessageToStorage m none = .ok (some (.wellFormed (.jarr [m])))
  ∧ saveMessageToStorage m (some (.wellFormed v)) = .ok (some (.wellFormed (.jarr [m])))
  ∧ getMessagesFromStorage (some .malformed) = .error ()
  ∧ saveMessageToStorage m (some .malformed) = .error () := by
  have hg : getMessagesFromStorage (some (.wellFormed v)) = .ok (.jarr []) := by
    simp [getMessagesFromStorage, jsonParse, Except.map, hv]
  exact ⟨rfl, hg, saveMessage_ok none [] m rfl, saveMessage_ok _ [] m hg, rfl, rfl⟩

/-- Witness for C2 (amended) at a falsy stored value. -/
theorem storage_corruption_policy_witness :
    truthy .jnull = false
  ∧ saveMessageToStorage (.jstr "hello") (some (.wellFormed .jnull)) =
      .ok (some (.wellFormed (.jarr [.jstr "hello"]))) :=
  ⟨rfl, (storage_corruption_policy (.jstr "hello") .jnull rfl).2.2.2.1⟩

/-- Claim C5: whenever the external send attempt rejects, `handleSubmit`
leaves the stored collection unchanged, shows the transient error status,
and re-enables the submit button. -/
theorem send_failure_no_append (fv : FormValues) (now : Int) (isoDate : String)
    (slot : StorageSlot) (hvalid : (validateForm fv).isFormValid = true) :
    handleSubmit fv now isoDate .failure slot =
      .ok { storage := slot, statusClass := "form-status error",
            statusText := "Failed to send message. Please try again or email me directly.",
            submitDisabled := false, submitLabel := "Send Message" } := by
  simp [handleSubmit, hvalid]

/-- Witness for C5 at the sample submission of §8. -/
theorem send_failure_no_append_witness :
    (validateForm sampleForm).isFormValid = true
  ∧ handleSubmit sampleForm 42 "2026-01-29T00:00:00.000Z" .failure none =
      .ok { storage := none, statusClass := "form-status error",
            statusText := "Failed to send message. Please try again or email me directly.",
            submitDisabled := false, submitLabel := "Send Message" } :=
  ⟨by decide,
   send_failure_no_append sampleForm 42 "2026-01-29T00:00:00.000Z" none (by decide)⟩

/-- Counterexample to claim C3: with two stored entries sharing id 1,
`deleteMessage 1` removes both (the result is the empty collection, not a
one-element collection), so it does not remove exactly one matching
entry. -/
theorem deleteMessage_removes_all_duplicates :
    deleteMessage 1 (some (.wellFormed (.jarr
        [.jobj [("id", .jnum 1)], .jobj [("id", .jnum 1)]]))) =
      .ok (some (.wellFormed (.jarr [])))
  ∧ JVal.jarr [] ≠ .jarr [.jobj [("id", .jnum 1)]] :=
  ⟨rfl, fun hcontra => by simp at hcontra⟩

/-- Claim C3 as amended: `deleteMessage id` filters out every entry whose
`id` matches (hence exactly one when at most one entry carries that id) and
keeps all other entries in their original relative order; if no entry
matches, the collection is unchanged. -/
theorem deleteMessage_spec (messageId : Int) (slot : StorageSlot) (elems : List JVal)
    (h : getMessagesFromStorage slot = .ok (.jarr elems)) :
    deleteMessage messageId slot =
      .ok (some (.wellFormed (.jarr (elems.filter (fun m => !matchesId m messageId)))))
  ∧ (∀ l1 m l2, elems = l1 ++ m :: l2 → matchesId m messageId = true →
       (∀ x ∈ l1, matchesId x messageId = false) →
       (∀ x ∈ l2, matchesId x messageId = false) →
       elems.filter (fun m => !matchesId m messageId) = l1 ++ l2)
  ∧ ((∀ x ∈ elems, matchesId x messageId = false) →
       elems.filter (fun m => !matchesId m messageId) = elems) := by
  refine ⟨?_, ?_, ?_⟩
  · unfold deleteMessage
    rw [h]
    rfl
  · intro l1 m l2 he hm h1 h2
    subst he
    rw [List.filter_append, List.filter_cons,
      List.filter_eq_self.mpr (fun x hx => by simp [h1 x hx]),
      List.filter_eq_self.mpr (fun x hx => by simp [h2 x hx])]
    simp [hm]
  · intro hall
    exact List.filter_eq_self.mpr (fun x hx => by simp [hall x hx])

/-- Witness for C3 (amended): deleting id 2 from a two-element collection
with distinct ids. -/
theorem deleteMessage_spec_witness :
    deleteMessage 2 (some (.wellFormed (.jarr
        [.jobj [("id", .jnum 1)], .jobj [("id", .jnum 2)]]))) =
      .ok (some (.wellFormed (.jarr
        (([.jobj [("id", .jnum 1)], .jobj [("id", .jnum 2)]] : List JVal).filter
          (fun m => !matchesId m 2))))) :=
  (deleteMessage_spec 2
    (some (.wellFormed (.jarr [.jobj [("id", .jnum 1)], .jobj [("id", .jnum 2)]])))
    [.jobj [("id", .jnum 1)], .jobj [("id", .jnum 2)]] rfl).1

/-- Claim C1: for every field id with configured rules, `validateField`
evaluates required, then minimum length, then maximum length, then pattern,
returning the failure message of the first failing rule and evaluating no
subsequent rule; every check operates on the trimmed value, and an
all-whitespace value counts as empty for the required check. -/
theorem validateField_rule_order (fieldId value : String) (rules : FieldRules)
    (hr : validationRules fieldId = some rules) :
    ((rules.required && (jsTrim value == "")) = true →
       validateField fieldId value =
         { isValid := false, errorMessage := rules.errorMessages.required })
  ∧ ((rules.required && (jsTrim value == "")) = false →
     (optTruthy rules.minLength &&
        decide ((jsTrim value).length < rules.minLength.getD 0)) = true →
       validateField fieldId value =
         { isValid := false, errorMessage := rules.errorMessages.minLength })
  ∧ ((rules.required && (jsTrim value == "")) = false →
     (optTruthy rules.minLength &&
        decide ((jsTrim value).length < rules.minLength.getD 0)) = false →
     (optTruthy rules.maxLength &&
        decide ((jsTrim value).length > rules.maxLength.getD 0)) = true →
       validateField fieldId value =
         { isValid := false, errorMessage := rules.errorMessages.maxLength })
  ∧ (∀ p, rules.pattern = some p →
     (rules.required && (jsTrim value == "")) = false →
     (optTruthy rules.minLength &&
        decide ((jsTrim value).length < rules.minLength.getD 0)) = false →
     (optTruthy rules.maxLength &&
        decide ((jsTrim value).length > rules.maxLength.getD 0)) = false →
       validateField fieldId value =
         (if !p (jsTrim value) then
            { isValid := false, errorMessage := rules.errorMessages.pattern }
          else { isValid := true, errorMessage := "" }))
  ∧ (rules.pattern = none →
     (rules.required && (jsTrim value == "")) = false →
     (optTruthy rules.minLength &&
        decide ((jsTrim value).length < rules.minLength.getD 0)) = false →
     (optTruthy rules.maxLength &&
        decide ((jsTrim value).length > rules.maxLength.getD 0)) = false →
       validateField fieldId value = { isValid := true, errorMessage := "" })
  ∧ (rules.required = true → (∀ c ∈ value.data, isWs c = true) →
       validateField fieldId value =
         { isValid := false, errorMessage := rules.errorMessages.required }) := by
  have hv : validateField fieldId value = checkRules rules (jsTrim value) := by
    unfold validateField
    rw [hr]
  refine ⟨?_, ?_, ?_, ?_, ?_, ?_⟩
  · intro h1
    rw [hv]
    unfold checkRules
    simp [h1]
  · intro h1 h2
    rw [hv]
    unfold checkRules
    simp [h1, h2]
  · intro h1 h2 h3
    rw [hv]
    unfold checkRules
    simp [h1, h2, h3]
  · intro p hp h1 h2 h3
    rw [hv]
    unfold checkRules
    simp [h1, h2, h3, hp]
  · intro hp h1 h2 h3
    rw [hv]
    unfold checkRules
    simp [h1, h2, h3, hp]
  · intro hreq hws
    rw [hv]
    unfold checkRules
    simp [hreq, jsTrim_all_ws value hws]

/-- Witness for C1: the subject field on an all-whitespace input fails on
the required rule with the configured message, even though the
minimum-length rule would also fail there. -/
theorem validateField_rule_order_witness :
    validationRules "subject" = some subjectRules
  ∧ validateField "subject" "   " =
      { isValid := false, errorMessage := "Please enter a subject" } :=
  ⟨rfl, (validateField_rule_order "subject" "   " subjectRules rfl).1 (by decide)⟩

/-- Claim C7: for the subject field, every input whose trimmed length is
between 3 and 200 inclusive is judged valid, and every input whose trimmed
length is 2 or 201 is judged invalid. -/
theorem subject_length_policy (value : String) :
    (3 ≤ (jsTrim value).length → (jsTrim value).length ≤ 200 →
       (validateField "subject" value).isValid = true)
  ∧ ((jsTrim value).length = 2 → (validateField "subject" value).isValid = false)
  ∧ ((jsTrim value).length = 201 → (validateField "subject" value).isValid = false) := by
  have hv : validateField "subject" value = checkRules subjectRules (jsTrim value) := rfl
  rw [hv, checkRules_none_isValid subjectRules (jsTrim value) rfl]
  refine ⟨?_, ?_, ?_⟩
  · intro h3 h200
    have hne : (jsTrim value == "") = false := by
      refine beq_eq_false_iff_ne.mpr (fun he => ?_)
      rw [he] at h3
      exact absurd h3 (by decide)
    simp [subjectRules, optTruthy, hne]
    omega
  · intro h2
    have hne : (jsTrim value == "") = false := by
      refine beq_eq_false_iff_ne.mpr (fun he => ?_)
      rw [he] at h2
      exact absurd h2 (by decide)
    simp [subjectRules, optTruthy, hne, h2]
  · intro h201
    have hne : (jsTrim value == "") = false := by
      refine beq_eq_false_iff_ne.mpr (fun he => ?_)
      rw [he] at h201
      exact absurd h201 (by decide)
    simp [subjectRules, optTruthy, hne, h201]

/-- Witness for C7 at concrete subject strings of trimmed lengths 3 and 2. -/
theorem subject_length_policy_witness :
    (validateField "subject" "abc").isValid = true
  ∧ (validateField "subject" "ab").isValid = false :=
  ⟨(subject_length_policy "abc").1 (by decide) (by decide),
   (subject_length_policy "ab").2.1 (by decide)⟩

/-- Claim C6: whole-form validation runs the per-field validator on every
field of the fixed list, is valid iff none fails, shows an error indicator
(with the per-field message) for every failing field simultaneously, and
focuses the first failing field in the fixed order. -/
theorem validateForm_spec (fv : FormValues) :
    ((validateForm fv).isFormValid =
       formFields.all (fun f => (validateField f (fieldValue fv f)).isValid))
  ∧ ((validateForm fv).errorsShown =
       (formFields.filter (fun f => !(validateField f (fieldValue fv f)).isValid)).map
         (fun f => (f, (validateField f (fieldValue fv f)).errorMessage)))
  ∧ ((validateForm fv).firstInvalidField =
       formFields.find? (fun f => !(validateField f (fieldValue fv f)).isValid)) := by
  have e1 : fieldValue fv "senderName" = fv.senderName := rfl
  have e2 : fieldValue fv "senderEmail" = fv.senderEmail := rfl
  have e3 : fieldValue fv "subject" = fv.subject := rfl
  have e4 : fieldValue fv "message" = fv.message := rfl
  cases h1 : (validateField "senderName" fv.senderName).isValid <;>
    cases h2 : (validateField "senderEmail" fv.senderEmail).isValid <;>
      cases h3 : (validateField "subject" fv.subject).isValid <;>
        cases h4 : (validateField "message" fv.message).isValid <;>
          simp [validateForm, formFields, e1, e2, e3, e4, h1, h2, h3, h4,
            List.filter, List.find?]

/-- Claim C4: appending to any slot holding a well-formed collection
succeeds, and the deserialized result has the appended message as its first
element; after appending a whole list of messages, the new messages sit at
the head in reverse insertion order (most recent first), ahead of the
original entries. -/
theorem append_listAll (slot : StorageSlot) (elems msgs : List JVal) (m : JVal)
    (h : getMessagesFromStorage slot = .ok (.jarr elems)) :
    (saveMessageToStorage m slot = .ok (some (.wellFormed (.jarr (m :: elems))))
      ∧ getMessagesFromStorage (some (.wellFormed (.jarr (m :: elems)))) =
          .ok (.jarr (m :: elems)))
  ∧ (∃ slot2, appendAll msgs slot = .ok slot2 ∧
       getMessagesFromStorage slot2 = .ok (.jarr (msgs.reverse ++ elems))) := by
  refine ⟨⟨saveMessage_ok slot elems m h, getMessages_wellFormed_arr (m :: elems)⟩, ?_⟩
  induction msgs generalizing slot elems with
  | nil =>
    exact ⟨slot, rfl, by simpa using h⟩
  | cons a ms ih =>
    obtain ⟨slot2, ha, hg⟩ :=
      ih (some (.wellFormed (.jarr (a :: elems)))) (a :: elems)
        (getMessages_wellFormed_arr (a :: elems))
    refine ⟨slot2, ?_, ?_⟩
    · unfold appendAll
      rw [List.foldlM_cons, saveMessage_ok slot elems a h]
      exact ha
    · rw [hg]
      simp

/-- Witness for C4: two appends onto the absent slot. -/
theorem append_listAll_witness :
    (saveMessageToStorage (.jstr "m1") none =
        .ok (some (.wellFormed (.jarr [.jstr "m1"])))
      ∧ getMessagesFromStorage (some (.wellFormed (.jarr [.jstr "m1"]))) =
          .ok (.jarr [.jstr "m1"]))
  ∧ (∃ slot2, appendAll [.jstr "m1", .jstr "m2"] none = .ok slot2 ∧
       getMessagesFromStorage slot2 =
         .ok (.jarr (([JVal.jstr "m1", .jstr "m2"] : List JVal).reverse ++ []))) :=
  append_listAll none [] [.jstr "m1", .jstr "m2"] (.jstr "m1") rfl

/-- Claim C8: if every stored entry carries an id strictly below the new
clock reading (the monotonically increasing clock), then at the moment of
insertion the fresh record's id matches no stored entry, and after the
store-append it occurs exactly once in the stored collection. -/
theorem id_unique_at_insertion (slot : StorageSlot) (elems : List JVal) (t : Int)
    (isoDate : String) (fv : FormValues)
    (h : getMessagesFromStorage slot = .ok (.jarr elems))
    (hclock : ∀ m ∈ elems, ∀ i : Int, matchesId m i = true → i < t) :
    elems.countP (fun m => matchesId m t) = 0
  ∧ saveMessageToStorage (mkFormData t isoDate fv) slot =
      .ok (some (.wellFormed (.jarr (mkFormData t isoDate fv :: elems))))
  ∧ (mkFormData t isoDate fv :: elems).countP (fun m => matchesId m t) = 1 := by
  have h0 : elems.countP (fun m => matchesId m t) = 0 :=
    List.countP_eq_zero.mpr (fun m hm hmt => absurd (hclock m hm t hmt) (lt_irrefl t))
  have hid : matchesId (mkFormData t isoDate fv) t = true := by
    simp [mkFormData, matchesId, idOf, List.lookup]
  refine ⟨h0, saveMessage_ok slot elems _ h, ?_⟩
  rw [List.countP_cons, h0, hid]
  rfl

/-- Witness for C8: inserting with clock reading 5 over a collection whose
single entry has id 3. -/
theorem id_unique_at_insertion_witness :
    ([JVal.jobj [("id", JVal.jnum 3)]] : List JVal).countP (fun m => matchesId m 5) = 0
  ∧ saveMessageToStorage (mkFormData 5 "2026-01-29" sampleForm)
      (some (.wellFormed (.jarr [.jobj [("id", .jnum 3)]]))) =
      .ok (some (.wellFormed (.jarr
        (mkFormData 5 "2026-01-29" sampleForm :: [.jobj [("id", .jnum 3)]]))))
  ∧ (mkFormData 5 "2026-01-29" sampleForm :: [JVal.jobj [("id", JVal.jnum 3)]]).countP
      (fun m => matchesId m 5) = 1 :=
  id_unique_at_insertion
    (some (.wellFormed (.jarr [.jobj [("id", .jnum 3)]])))
    [.jobj [("id", .jnum 3)]] 5 "2026-01-29" sampleForm rfl
    (by
      intro m hm i hi
      simp only [List.mem_singleton] at hm
      subst hm
      simp [matchesId, idOf, List.lookup] at hi
      omega)

end Script
